import Mathlib

/-!
Verification of the powerapi / smartwatts actor runtime and report pipeline.

The definitions below are a shallow embedding of the Python sources:
  - src/smartwatts/actor/actor.py (dispatch loop, run loop, termination)
  - src/smartwatts/handler/start_handler.py (start handshake)
  - src/powerapi/filter.py (routing filter)
  - src/powerapi/rx/hwpc_reports_group.py (grouped HWPC reports)
  - src/powerapi/sources/mongosource.py (batch-mode Mongo source)
Side effects (messages sent on sockets, handler invocations) are made
explicit as returned event traces; Python exceptions become Except errors.
-/

namespace PowerAPI

/-! ### Actor messages and handlers (actor.py)

A Python message object is modelled by the list of runtime-class tags it is
an instance of (its own class plus every superclass and marker class), so
that `isinstance(msg, T)` becomes membership of the tag of `T` in that
list.  A payload tag keeps distinct message objects distinct. -/

structure PMsg where
  classes : List Nat
  payload : Nat
deriving DecidableEq

/-- A handler object of the actor: an identifier (so traces can record which
handler ran) and its `handle_message` transition. -/
structure AHandler (σ : Type) where
  hid : Nat
  handle_message : PMsg → σ → σ

/-- Errors that escape the dispatch loop: `UnknowMessageTypeException`
raised by `get_corresponding_handler`, and the attribute error hit when the
timeout fires with no timeout handler registered. -/
inductive ActorErr
  | unknownMessageType
  | noTimeoutHandler
deriving DecidableEq

/-- `isinstance(msg, msg_type)` from the dispatch loop: the registered tag
is among the runtime classes of the message. -/
def isinstance (m : PMsg) (t : Nat) : Bool :=
  m.classes.contains t

/-- `Actor.add_handler`: append a (message type, handler) binding to the
ordered table. -/
def add_handler {σ : Type} (hs : List (Nat × AHandler σ)) (t : Nat) (h : AHandler σ) :
    List (Nat × AHandler σ) :=
  hs ++ [(t, h)]

/-- `Actor.get_corresponding_handler`: linear scan of the ordered table,
first `isinstance` hit wins; raises `UnknowMessageTypeException` when no
entry matches. -/
def get_corresponding_handler {σ : Type} (hs : List (Nat × AHandler σ)) (m : PMsg) :
    Except ActorErr (AHandler σ) :=
  match hs.find? (fun p => isinstance m p.1) with
  | some p => Except.ok p.2
  | none => Except.error ActorErr.unknownMessageType

/-- Observable events of one `_initial_behaviour` step: a message handler
invoked on a message, or the timeout handler invoked. -/
inductive DEv
  | handlerCall (hid : Nat) (m : PMsg)
  | timeoutCall
deriving DecidableEq

/-- The `for msg in msg_list` dispatch loop of `Actor._initial_behaviour`:
each message is dispatched in order to its first matching handler, whose
result becomes the state for the next message; an unknown message type
raises, aborting the rest of the batch.  The trace records every handler
invocation in order. -/
def dispatchLoop {σ : Type} (hs : List (Nat × AHandler σ)) (msgs : List PMsg) (s : σ) :
    Except ActorErr σ × List DEv :=
  match msgs with
  | [] => (Except.ok s, [])
  | m :: rest =>
    match get_corresponding_handler hs m with
    | Except.error e => (Except.error e, [])
    | Except.ok h =>
      let res := dispatchLoop hs rest (h.handle_message m s)
      (res.1, DEv.handlerCall h.hid m :: res.2)

/-- `Actor._initial_behaviour` given the list returned by `receive()`:
an empty list fires the timeout handler with message `None` and the current
state; otherwise the batch is dispatched. -/
def initial_behaviour {σ : Type} (timeout_handler : Option (Option PMsg → σ → σ))
    (hs : List (Nat × AHandler σ)) (msgs : List PMsg) (s : σ) :
    Except ActorErr σ × List DEv :=
  match msgs with
  | [] =>
    match timeout_handler with
    | some th => (Except.ok (th none s), [DEv.timeoutCall])
    | none => (Except.error ActorErr.noTimeoutHandler, [])
  | m :: rest => dispatchLoop hs (m :: rest) s

/-- Some entry of the table matches the message. -/
def hasHandlerFor {σ : Type} (hs : List (Nat × AHandler σ)) (m : PMsg) : Bool :=
  hs.any (fun p => isinstance m p.1)

/-- The state after dispatching a batch in which every message matches:
each message is folded through its first matching handler. -/
def applyHandlers {σ : Type} (hs : List (Nat × AHandler σ)) (msgs : List PMsg) (s : σ) : σ :=
  msgs.foldl (fun st m =>
    match hs.find? (fun p => isinstance m p.1) with
    | some p => p.2.handle_message m st
    | none => st) s

/-! ### The `run` loop and termination (actor.py)

`Actor.run` is `setup(); while state.alive: state.behaviour(self); _kill_process()`.
The behaviour step is abstracted as a state transformer and the liveness
test as a Boolean observation of the state; `_kill_process` first calls the
`terminated_behaviour` hook and then closes the socket interface.  The loop
is given explicit fuel: `none` means the loop was still alive after `fuel`
behaviour steps. -/

/-- Observable events of `Actor.run`: one behaviour step, the
`terminated_behaviour` hook, and the socket interface close. -/
inductive RunEv
  | step
  | terminated
  | close
deriving DecidableEq

/-- `Actor._kill_process`: invoke `terminated_behaviour`, then close the
socket interface. -/
def kill_process : List RunEv :=
  [RunEv.terminated, RunEv.close]

/-- The `while state.alive: state.behaviour(self)` loop of `Actor.run`
followed by `_kill_process`, with explicit fuel bounding the number of
behaviour steps observed. -/
def runFuel {σ : Type} (behaviour : σ → σ) (alive : σ → Bool) :
    Nat → σ → Option (List RunEv)
  | 0, s => if alive s then none else some kill_process
  | Nat.succ n, s =>
    if alive s then
      Option.map (fun tr => RunEv.step :: tr) (runFuel behaviour alive n (behaviour s))
    else some kill_process

/-! ### Start handshake (start_handler.py) -/

/-- The message protocol around the start handshake: `StartMessage`,
the control replies, the poison pill and application messages. -/
inductive SMsg
  | startMessage
  | okMessage
  | errorMessage (reason : String)
  | poisonPill
  | app (n : Nat)
deriving DecidableEq

/-- `isinstance(msg, StartMessage)`. -/
def isStartMessage : SMsg → Bool
  | SMsg.startMessage => true
  | _ => false

/-- Replies sent on the control channel by `send_control`. -/
inductive CtrlMsg
  | ok
  | error (reason : String)
deriving DecidableEq

/-- The actor state seen by `StartHandler`: the `initialized` flag plus the
rest of the state, abstracted as a payload. -/
structure SState (α : Type) where
  initialized : Bool
  payload : α
deriving DecidableEq

/-- `StartHandler.handle`.  The `initialization` specialization hook is a
parameter (identity in the base class).  The result carries the returned
state, the list of control-channel replies sent, and how many times the
`initialization` hook was invoked. -/
def StartHandler_handle {α : Type} (initialization : SState α → SState α)
    (msg : SMsg) (state : SState α) : SState α × List CtrlMsg × Nat :=
  if state.initialized then
    (state, [CtrlMsg.error "Actor already initialized"], 0)
  else if isStartMessage msg = false then
    (state, [], 0)
  else
    let state1 := initialization state
    ({ state1 with initialized := true }, [CtrlMsg.ok], 1)

/-! ### Routing filter (filter.py)

Dispatcher addresses are abstracted as naturals; reports as an arbitrary
type. -/

/-- The exceptions around `Filter.route`: the bare `RuntimeError()` the
code raises, and the `RouterWithoutRuleException` class the module defines
(documented as "Exception raised when a filter route with 0 filters") but
never raises. -/
inductive RouteError
  | runtimeError
  | routerWithoutRule
deriving DecidableEq

/-- `Filter.filter`: append a (rule, dispatcher) pair. -/
def Filter_filter {ρ : Type} (filters : List ((ρ → Bool) × Nat))
    (rule : ρ → Bool) (dispatcher : Nat) : List ((ρ → Bool) × Nat) :=
  filters ++ [(rule, dispatcher)]

/-- `Filter.route`: raises `RuntimeError()` when no rule was ever
registered, otherwise collects in order the dispatchers whose rule accepts
the report (every rule is evaluated, no short-circuit). -/
def Filter_route {ρ : Type} (filters : List ((ρ → Bool) × Nat)) (report : ρ) :
    Except RouteError (List Nat) :=
  if filters.isEmpty then Except.error RouteError.runtimeError
  else
    Except.ok (filters.foldl (fun acc p => if p.1 report then acc ++ [p.2] else acc) [])

/-! ### Grouped HWPC reports (hwpc_reports_group.py)

Python dicts that matter for the observable values are modelled as
association lists in insertion order (Python dicts iterate in insertion
order); an insert of an existing key updates it in place, an insert of a
new key appends it. -/

/-- Insertion-ordered dict with string keys. -/
abbrev AList (β : Type) := List (String × β)

/-- `d[k] = v` on a Python dict: update the binding in place when the key
is present, append it otherwise. -/
def alistInsert {β : Type} (k : String) (v : β) : AList β → AList β
  | [] => [(k, v)]
  | (k1, v1) :: rest =>
    if k1 == k then (k1, v) :: rest else (k1, v1) :: alistInsert k v rest

/-- `d[k]` / `k in d` on a Python dict. -/
def alistLookup {β : Type} (k : String) : AList β → Option β
  | [] => none
  | (k1, v1) :: rest => if k1 == k then some v1 else alistLookup k rest

/-- The nested `groups` value of an HWPC document:
group id → socket id → core id → event id → event value. -/
abbrev GroupsDict := AList (AList (AList (AList Int)))

/-- An input document of `create_reports_group_from_dicts` (one element of
`reports_dict`).  Fields are optional because the validation checks which
keys are present. -/
structure RawDoc where
  timestamp : Option Nat
  sensor : Option String
  target : Option String
  groups : Option GroupsDict

/-- One row of the flat `Report` DataFrame built by
`create_reports_group_from_dicts` (columns target, groups, socket_id,
core_id, event_id, event_value). -/
structure HRow where
  target : String
  group : String
  socket : String
  core : String
  event : String
  value : Int
deriving DecidableEq

/-- An `HWPCReportsGroup`: the basic infos plus the flat report rows. -/
structure HWPCReportsGroup where
  timestamp : Nat
  sensor : String
  report : List HRow
deriving DecidableEq

/-- An output document of `to_mongodb_dict` (basic infos, target and the
rebuilt nested groups). -/
structure OutDoc where
  timestamp : Nat
  sensor : String
  target : String
  groups : GroupsDict

/-- Modelled from the spec: `ReportsGroup.is_basic_information_in_reports_dict`
is not under src/ (only its caller is); per the spec, construction requires
the keys timestamp, sensor and target (besides groups) in every input row,
so the check scans every dictionary for those keys and is vacuously true on
an empty list. -/
def is_basic_information_in_reports_dict (ds : List RawDoc) : Bool :=
  ds.all (fun d => d.timestamp.isSome && d.sensor.isSome && d.target.isSome)

/-- `HWPCReportsGroup.is_information_in_reports_dict`: every dictionary
must carry the `groups` key, then the basic information check applies. -/
def is_information_in_reports_dict (ds : List RawDoc) : Bool :=
  ds.all (fun d => d.groups.isSome) && is_basic_information_in_reports_dict ds

/-- The errors of `create_reports_group_from_dicts`: the raised
`BadInputDataException`, and the `IndexError` escaping from
`reports_dict[0]` on an empty input list. -/
inductive CreateError
  | badInputData
  | indexError
deriving DecidableEq

/-- The four nested `for` loops of `create_reports_group_from_dicts`
flattening the nested `groups` dict of one input document into report
rows, in dict iteration order. -/
def rowsOfGroups (target : String) (groups : GroupsDict) : List HRow :=
  groups.flatMap (fun gp =>
    gp.2.flatMap (fun sp =>
      sp.2.flatMap (fun cp =>
        cp.2.map (fun ep => HRow.mk target gp.1 sp.1 cp.1 ep.1 ep.2))))

/-- `HWPCReportsGroup.create_reports_group_from_dicts`: validate the
required keys (else `BadInputDataException`), flatten every document into
report rows, then read timestamp and sensor from `reports_dict[0]` — which
raises `IndexError` when the input list is empty. -/
def create_reports_group_from_dicts (ds : List RawDoc) : Except CreateError HWPCReportsGroup :=
  if is_information_in_reports_dict ds = false then Except.error CreateError.badInputData
  else
    let rows := ds.flatMap (fun d => rowsOfGroups (d.target.getD "") (d.groups.getD []))
    match ds with
    | [] => Except.error CreateError.indexError
    | d0 :: _ =>
      Except.ok (HWPCReportsGroup.mk (d0.timestamp.getD 0) (d0.sensor.getD "") rows)

/-- Key order of `groupby(col, sort=False).indices`: the distinct values in
first-occurrence order. -/
def dedupKeys (l : List String) : List String :=
  l.foldl (fun acc t => if acc.contains t then acc else acc ++ [t]) []

/-- The inner loop of `to_mongodb_dict` over the rows of one target:
rebuild the nested group → socket → core → event dict (creating the
missing levels, then assigning the event value). -/
def buildGroups (rows : List HRow) : GroupsDict :=
  rows.foldl (fun acc r =>
    let socks := (alistLookup r.group acc).getD []
    let cores := (alistLookup r.socket socks).getD []
    let evs := (alistLookup r.core cores).getD []
    alistInsert r.group
      (alistInsert r.socket (alistInsert r.core (alistInsert r.event r.value evs) cores) socks)
      acc) []

/-- `HWPCReportsGroup.to_mongodb_dict`.  The source sets
`current_report_dict = report_dict_basics` inside the per-target loop,
which does NOT copy: one single dict object is reused across all the
iterations, and `reports_dict.append(current_report_dict)` appends a
reference to that same object each time.  After the loop every list entry
is therefore observed equal to the dict as mutated by the LAST iteration
(basics, `target` set to the last target, `groups` rebuilt from the last
target's rows), and the list has one entry per distinct target. -/
def to_mongodb_dict (g : HWPCReportsGroup) : List OutDoc :=
  let targets := dedupKeys (g.report.map (fun r => r.target))
  match targets.getLast? with
  | none => []
  | some tLast =>
    List.replicate targets.length
      (OutDoc.mk g.timestamp g.sensor tLast
        (buildGroups (g.report.filter (fun r => r.target == tLast))))

/-- Key order of `groupby([GROUPS_CN, EVENT_CN], sort=False).indices`: the
distinct (group, event) pairs in first-occurrence order. -/
def dedupPairs (l : List (String × String)) : List (String × String) :=
  l.foldl (fun acc p => if acc.contains p then acc else acc ++ [p]) []

/-- `HWPCReportsGroup.get_group_events`.  The source test is
`if group in group_events_key` where `group_events_key` is the tuple
(group name, event name); Python tuple membership matches EITHER
component, and that is kept here. -/
def get_group_events (g : HWPCReportsGroup) (group : String) : List String :=
  let keys := dedupPairs (g.report.map (fun r => (r.group, r.event)))
  (keys.filter (fun k => k.1 == group || k.2 == group)).map (fun k => k.2)

/-- One lookup `sums_dict[(target, group, socket, event)]` where
`sums_dict` is `groupby([TARGET, GROUPS, SOCKET, EVENT], sort=False)[EVENT_VALUE].sum()`:
the key exists exactly when some row matches all four coordinates, and its
value is the sum of the matching event values; a missing key raises
`KeyError`, modelled as `none`. -/
def sumForKey (g : HWPCReportsGroup) (target group socket event : String) : Option Int :=
  let rows := g.report.filter (fun r =>
    r.target == target && r.group == group && r.socket == socket && r.event == event)
  if rows.isEmpty then none
  else some (rows.foldl (fun acc r => acc + r.value) 0)

/-- `HWPCReportsGroup.compute_group_event_sum`: `None` when the group has
no events; otherwise fills a dict with the per-event sums, and a `KeyError`
on any event makes the whole result `None`. -/
def compute_group_event_sum (g : HWPCReportsGroup) (group target socket : String) :
    Option (AList Int) :=
  let evs := get_group_events g group
  if evs.length = 0 then none
  else
    evs.foldl (fun acc e =>
      match acc, sumForKey g target group socket e with
      | some d, some v => some (alistInsert e v d)
      | _, _ => none) (some [])

/-! ### Batch-mode Mongo source (mongosource.py)

A persisted document is abstracted to its timestamp and an identifying
payload; the cursor is the list of documents in collection order, and an
emission (`operator.on_next` applied to
`create_reports_group_from_dicts(current_group_dicts["dicts"])`) is
recorded as the list of documents of the emitted group. -/

/-- A document read from the Mongo cursor. -/
structure MDoc where
  ts : Nat
  data : Nat
deriving DecidableEq

/-- The `while True` loop of `MongoSource.subscribe` in batch (non-stream)
mode: `current` is `current_group_dicts` (`None` or the buffered timestamp
with its document list).  A document with the buffered timestamp is
appended to the buffer; a document with a different timestamp makes the
buffered group be emitted and starts a new buffer; `StopIteration` returns
without emitting the buffer. -/
def subscribeLoop (cursor : List MDoc) (current : Option (Nat × List MDoc)) :
    List (List MDoc) :=
  match cursor with
  | [] => []
  | d :: rest =>
    match current with
    | none => subscribeLoop rest (some (d.ts, [d]))
    | some (ts, ds) =>
      if ts == d.ts then subscribeLoop rest (some (ts, ds ++ [d]))
      else ds :: subscribeLoop rest (some (d.ts, [d]))

/-- `MongoSource.subscribe` in batch mode on a fresh source
(`current_group_dicts` starts as `None`): the list of emitted groups in
emission order. -/
def subscribe_batch (docs : List MDoc) : List (List MDoc) :=
  subscribeLoop docs none

/-- Specification-side decomposition of the cursor into maximal runs of
consecutive documents sharing a timestamp: the accumulator holds the
current run and its timestamp. -/
def tsRunsAux (cursor : List MDoc) (ts : Nat) (acc : List MDoc) : List (List MDoc) :=
  match cursor with
  | [] => [acc]
  | d :: rest =>
    if ts == d.ts then tsRunsAux rest ts (acc ++ [d])
    else acc :: tsRunsAux rest d.ts [d]

/-- Specification-side decomposition of the cursor into maximal runs of
consecutive documents sharing a timestamp. -/
def tsRuns : List MDoc → List (List MDoc)
  | [] => []
  | d :: rest => tsRunsAux rest d.ts [d]

/-! ### Concrete instances used by the claims and their witnesses -/

/-- A handler registered for message class 0. -/
def demoHA : AHandler Nat :=
  AHandler.mk 0 (fun _ s => s + 1)

/-- A handler registered for message class 1. -/
def demoHB : AHandler Nat :=
  AHandler.mk 1 (fun m s => s + m.payload)

/-- A two-entry handler table built with `add_handler`. -/
def demoHs : List (Nat × AHandler Nat) :=
  add_handler (add_handler [] 0 demoHA) 1 demoHB

/-- A message of runtime class 1 (with an extra marker class 9). -/
def demoMsg : PMsg :=
  PMsg.mk [1, 9] 5

/-- A message of runtime class 0. -/
def demoM0 : PMsg :=
  PMsg.mk [0] 2

/-- A message whose runtime class matches no table entry. -/
def demoBad : PMsg :=
  PMsg.mk [3] 7

/-- A timeout handler on `Nat` states. -/
def demoTimeout : Option PMsg → Nat → Nat :=
  fun _ n => n + 1

/-- Input document of the C5 failing input: target t1, event e1 value 3. -/
def docC5a : RawDoc :=
  RawDoc.mk (some 10) (some "s1") (some "t1")
    (some [("msr", [("0", [("0", [("e1", 3)])])])])

/-- Input document of the C5 failing input: target t2, event e1 value 4. -/
def docC5b : RawDoc :=
  RawDoc.mk (some 10) (some "s1") (some "t2")
    (some [("msr", [("0", [("0", [("e1", 4)])])])])

/-- The grouped report built from `[docC5a, docC5b]`. -/
def groupC5 : HWPCReportsGroup :=
  HWPCReportsGroup.mk 10 "s1"
    [HRow.mk "t1" "msr" "0" "0" "e1" 3, HRow.mk "t2" "msr" "0" "0" "e1" 4]

/-- The single dict object observed in every entry of
`to_mongodb_dict groupC5`: the last target's data. -/
def outDocC5 : OutDoc :=
  OutDoc.mk 10 "s1" "t2" [("msr", [("0", [("0", [("e1", 4)])])])]

/-- Input document of the C6 scenario: core 0, event e1 value 3. -/
def docC6a : RawDoc :=
  RawDoc.mk (some 10) (some "s1") (some "t1")
    (some [("msr", [("0", [("0", [("e1", 3)])])])])

/-- Input document of the C6 scenario: core 1, event e1 value 5. -/
def docC6b : RawDoc :=
  RawDoc.mk (some 10) (some "s1") (some "t1")
    (some [("msr", [("0", [("1", [("e1", 5)])])])])

/-- The grouped report built from `[docC6a, docC6b]`. -/
def groupC6 : HWPCReportsGroup :=
  HWPCReportsGroup.mk 10 "s1"
    [HRow.mk "t1" "msr" "0" "0" "e1" 3, HRow.mk "t1" "msr" "0" "1" "e1" 5]

/-- A three-document cursor: two documents at timestamp 1, one at 2. -/
def demoDocs : List MDoc :=
  [MDoc.mk 1 0, MDoc.mk 1 1, MDoc.mk 2 2]

/-! ## Theorems -/

/-- C2: for every actor state with `initialized = true` and a
`StartMessage`, `StartHandler.handle` replies
`ErrorMessage("Actor already initialized")` on the control channel, does
not invoke the `initialization` hook, and returns the state unchanged, so
`initialized` stays true. -/
theorem C2_second_start_rejected (α : Type) (initialization : SState α → SState α)
    (s : SState α) (h : s.initialized = true) :
    StartHandler_handle initialization SMsg.startMessage s =
      (s, [CtrlMsg.error "Actor already initialized"], 0) ∧
    (StartHandler_handle initialization SMsg.startMessage s).1.initialized = true := by
  constructor
  · simp [StartHandler_handle, h]
  · simp [StartHandler_handle, h]

/-- Witness for C2 at a concrete already-initialized state and a
nontrivial `initialization` hook. -/
theorem C2_second_start_rejected_witness :
    (SState.mk true (0 : Nat)).initialized = true ∧
    StartHandler_handle (fun s => SState.mk s.initialized (s.payload + 7))
        SMsg.startMessage (SState.mk true (0 : Nat)) =
      (SState.mk true 0, [CtrlMsg.error "Actor already initialized"], 0) :=
  ⟨rfl,
    (C2_second_start_rejected Nat (fun s => SState.mk s.initialized (s.payload + 7))
      (SState.mk true 0) rfl).1⟩

/-- C3 counterexample: the claim says a non-`StartMessage` is silently
ignored regardless of `initialized`, but on an initialized state the code
replies `ErrorMessage("Actor already initialized")` even to an `OKMessage`
(the `initialized` test precedes the message-type test), so something IS
sent on the control channel. -/
theorem C3_counterexample :
    StartHandler_handle (fun s => s) SMsg.okMessage (SState.mk true (0 : Nat)) =
      (SState.mk true 0, [CtrlMsg.error "Actor already initialized"], 0) ∧
    ([CtrlMsg.error "Actor already initialized"] : List CtrlMsg) ≠ [] := by
  exact ⟨rfl, by decide⟩

/-- C3 amended: for every state with `initialized = false` and every
message that is not a `StartMessage`, `StartHandler.handle` is a no-op: it
returns the state unchanged, sends nothing on the control channel and does
not run `initialization`.  (On an initialized state the error reply is sent
first, whatever the message.) -/
theorem C3_nonstart_noop (α : Type) (initialization : SState α → SState α)
    (msg : SMsg) (s : SState α) (hinit : s.initialized = false)
    (hmsg : isStartMessage msg = false) :
    StartHandler_handle initialization msg s = (s, [], 0) := by
  simp [StartHandler_handle, hinit, hmsg]

/-- Witness for the amended C3 at an uninitialized state and a
`PoisonPillMessage`. -/
theorem C3_nonstart_noop_witness :
    (SState.mk false (0 : Nat)).initialized = false ∧
    isStartMessage SMsg.poisonPill = false ∧
    StartHandler_handle (fun s => s) SMsg.poisonPill (SState.mk false (0 : Nat)) =
      (SState.mk false 0, [], 0) :=
  ⟨rfl, rfl, C3_nonstart_noop Nat (fun s => s) SMsg.poisonPill (SState.mk false 0) rfl rfl⟩

/-- C4: with zero registered rules, `Filter.route` raises the BARE
`RuntimeError()`, not the typed `RouterWithoutRuleException` the module
defines for exactly that case (the claim and the class docstring describe
the typed error); with rules `[p1 → 1, p2 → 2]` and a report accepted by
`p1` only, it returns `[1]`. -/
theorem C4_route_error_and_routing :
    Filter_route ([] : List ((Nat → Bool) × Nat)) 0 = Except.error RouteError.runtimeError ∧
    RouteError.runtimeError ≠ RouteError.routerWithoutRule ∧
    Filter_route (Filter_filter (Filter_filter [] (fun n => n == 0) 1) (fun n => n == 5) 2) 0 =
      Except.ok [1] := by
  exact ⟨rfl, by decide, rfl⟩

/-- C6: on the grouped report built from the two scenario rows
(socket 0, cores 0 and 1, event e1, values 3 and 5),
`compute_group_event_sum("msr", "t1", "0")` returns the per-event sum
across cores, the mapping e1 to 8. -/
theorem C6_group_event_sum :
    create_reports_group_from_dicts [docC6a, docC6b] = Except.ok groupC6 ∧
    compute_group_event_sum groupC6 "msr" "t1" "0" = some [("e1", 8)] := by
  exact ⟨rfl, rfl⟩

/-- C9: the empty input list passes the required-keys validation
vacuously, so `create_reports_group_from_dicts([])` does not raise
`BadInputDataException` but fails with the `IndexError` from
`reports_dict[0]`: non-emptiness is an unstated precondition. -/
theorem C9_empty_input_index_error :
    is_information_in_reports_dict [] = true ∧
    create_reports_group_from_dicts [] = Except.error CreateError.indexError ∧
    CreateError.indexError ≠ CreateError.badInputData := by
  exact ⟨rfl, rfl, by decide⟩

/-- C5: the round trip fails on the two-target input `[docC5a, docC5b]`.
Construction succeeds and the group holds target t1's row (e1 value 3),
but `to_mongodb_dict` reuses ONE dict object across the per-target loop
(`current_report_dict = report_dict_basics` does not copy), so the
serialized list is the last target's dict twice: no entry for target t1
exists and its (msr, 0, 0, e1) mapping is lost, while t2's value 4 appears
twice. -/
theorem C5_roundtrip_fails_on_two_targets :
    create_reports_group_from_dicts [docC5a, docC5b] = Except.ok groupC5 ∧
    groupC5.report.filter (fun r => r.target == "t1") =
      [HRow.mk "t1" "msr" "0" "0" "e1" 3] ∧
    to_mongodb_dict groupC5 = [outDocC5, outDocC5] ∧
    (to_mongodb_dict groupC5).find? (fun d => d.target == "t1") = none := by
  exact ⟨rfl, rfl, rfl, rfl⟩

/-- C7: when `receive()` returns the empty list, `_initial_behaviour`
invokes the registered timeout handler exactly once, with message `None`
and the current state, its return value becomes the new state, and no
message handler is invoked in that iteration. -/
theorem C7_timeout_handler_invoked (σ : Type) (timeout_handler : Option (Option PMsg → σ → σ))
    (th : Option PMsg → σ → σ) (hs : List (Nat × AHandler σ)) (s : σ)
    (hth : timeout_handler = some th) :
    initial_behaviour timeout_handler hs [] s = (Except.ok (th none s), [DEv.timeoutCall]) ∧
    (∀ hid m, DEv.handlerCall hid m ∉ (initial_behaviour timeout_handler hs [] s).2) ∧
    (initial_behaviour timeout_handler hs [] s).2.count DEv.timeoutCall = 1 := by
  subst hth
  refine ⟨rfl, ?_, rfl⟩
  intro hid m
  simp [initial_behaviour]

/-- Witness for C7 with a concrete timeout handler on `Nat` states. -/
theorem C7_timeout_handler_invoked_witness :
    (some demoTimeout = some demoTimeout) ∧
    initial_behaviour (some demoTimeout) ([] : List (Nat × AHandler Nat)) [] 0 =
      (Except.ok 1, [DEv.timeoutCall]) :=
  ⟨rfl,
    (C7_timeout_handler_invoked Nat (some demoTimeout) demoTimeout [] 0 rfl).1⟩

/-- Helper: counts of the cleanup events in a run trace of `k` behaviour
steps followed by `_kill_process`. -/
theorem count_steps_kill (k : Nat) :
    (List.replicate k RunEv.step ++ kill_process).count RunEv.terminated = 1 ∧
    (List.replicate k RunEv.step ++ kill_process).count RunEv.close = 1 := by
  constructor <;>
    simp [kill_process, List.count_append, List.count_replicate, List.count_cons]

/-- C8: in every execution of `run()`, if the transition applied at the
`k`-th iteration (such as the processing of a `PoisonPillMessage`) is the
first to leave `alive = false`, then the next loop-condition check observes
it: exactly `k` behaviour steps run, no further one, and `_kill_process`
runs exactly once, invoking `terminated_behaviour` exactly once and closing
the socket interface exactly once. -/
theorem C8_run_cleanup_once (σ : Type) (behaviour : σ → σ) (alive : σ → Bool)
    (s : σ) (k fuel : Nat)
    (hlive : ∀ j, j < k → alive (behaviour^[j] s) = true)
    (hdead : alive (behaviour^[k] s) = false)
    (hfuel : k ≤ fuel) :
    runFuel behaviour alive fuel s =
      some (List.replicate k RunEv.step ++ kill_process) ∧
    (List.replicate k RunEv.step ++ kill_process).count RunEv.terminated = 1 ∧
    (List.replicate k RunEv.step ++ kill_process).count RunEv.close = 1 := by
  refine ⟨?_, count_steps_kill k⟩
  induction k generalizing s fuel with
  | zero =>
    have h0 : alive s = false := by simpa using hdead
    cases fuel with
    | zero => simp [runFuel, h0]
    | succ n => simp [runFuel, h0]
  | succ k ih =>
    have h0 : alive s = true := by simpa using hlive 0 (Nat.succ_pos k)
    cases fuel with
    | zero => exact absurd hfuel (by omega)
    | succ n =>
      have hlive' : ∀ j, j < k → alive (behaviour^[j] (behaviour s)) = true := by
        intro j hj
        have := hlive (j + 1) (by omega)
        rwa [Function.iterate_succ_apply] at this
      have hdead' : alive (behaviour^[k] (behaviour s)) = false := by
        have := hdead
        rwa [Function.iterate_succ_apply] at this
      have hrec := ih (behaviour s) n hlive' hdead' (by omega)
      simp only [runFuel, h0, if_true, hrec, Option.map_some]
      rw [List.replicate_succ, List.cons_append]
      rfl

/-- Witness for C8: a Boolean liveness state, a behaviour step that clears
it (the poison-pill transition), one live iteration, then cleanup. -/
theorem C8_run_cleanup_once_witness :
    (∀ j, j < 1 → (fun b => b) ((fun _ => false)^[j] true) = true) ∧
    (fun b => b) ((fun _ => false)^[1] true) = false ∧
    runFuel (fun _ => false) (fun b => b) 1 true =
      some [RunEv.step, RunEv.terminated, RunEv.close] := by
  refine ⟨?_, by decide, ?_⟩
  · intro j hj
    interval_cases j
    rfl
  · exact (C8_run_cleanup_once Bool (fun _ => false) (fun b => b) true 1 1
      (by intro j hj; interval_cases j; rfl) (by decide) (by omega)).1

/-- Helper: the linear scan returns the entry after the first block of
non-matching entries when that entry matches. -/
theorem find_first_match (σ : Type) (m : PMsg) (hs1 hs2 : List (Nat × AHandler σ))
    (t : Nat) (h : AHandler σ)
    (h1 : ∀ p ∈ hs1, isinstance m p.1 = false) (h2 : isinstance m t = true) :
    (hs1 ++ (t, h) :: hs2).find? (fun p => isinstance m p.1) = some (t, h) := by
  induction hs1 with
  | nil =>
    rw [List.nil_append]
    apply List.find?_cons_of_pos
    simpa using h2
  | cons q qs ih =>
    have hq : isinstance m q.1 = false := h1 q (List.mem_cons_self q qs)
    rw [List.cons_append, List.find?_cons_of_neg _ (by simp [hq])]
    exact ih (fun p hp => h1 p (List.mem_cons_of_mem q hp))

/-- Helper: a message with some matching entry has a first match. -/
theorem hasHandlerFor_find (σ : Type) (hs : List (Nat × AHandler σ)) (m : PMsg)
    (h : hasHandlerFor hs m = true) :
    ∃ p, hs.find? (fun q => isinstance m q.1) = some p := by
  rw [hasHandlerFor] at h
  rcases List.any_eq_true.1 h with ⟨q, hq, hmatch⟩
  have : (hs.find? (fun q => isinstance m q.1)).isSome := by
    rw [List.find?_isSome]
    exact ⟨q, hq, hmatch⟩
  exact Option.isSome_iff_exists.1 this

/-- Helper: dispatching a batch whose prefix is fully handled splits into
the prefix dispatch followed by the rest, with the state threaded through
the prefix handlers. -/
theorem dispatch_append (σ : Type) (hs : List (Nat × AHandler σ)) (pre rest : List PMsg)
    (hpre : ∀ m ∈ pre, hasHandlerFor hs m = true) (s : σ) :
    dispatchLoop hs (pre ++ rest) s =
      ((dispatchLoop hs rest (applyHandlers hs pre s)).1,
       (dispatchLoop hs pre s).2 ++ (dispatchLoop hs rest (applyHandlers hs pre s)).2) := by
  induction pre generalizing s with
  | nil =>
    simp [dispatchLoop, applyHandlers]
  | cons m pre' ih =>
    rcases hasHandlerFor_find σ hs m (hpre m (List.mem_cons_self m pre')) with ⟨p, hp⟩
    have hrest : ∀ m2 ∈ pre', hasHandlerFor hs m2 = true :=
      fun m2 hm2 => hpre m2 (List.mem_cons_of_mem m hm2)
    have happ : applyHandlers hs (m :: pre') s =
        applyHandlers hs pre' (p.2.handle_message m s) := by
      simp [applyHandlers, hp]
    rw [List.cons_append]
    simp only [dispatchLoop, get_corresponding_handler, hp]
    rw [ih hrest (p.2.handle_message m s), happ]
    simp

/-- Helper: a fully handled batch produces exactly one handler invocation
per message occurrence. -/
theorem dispatch_trace_length (σ : Type) (hs : List (Nat × AHandler σ)) (msgs : List PMsg)
    (hmsgs : ∀ m ∈ msgs, hasHandlerFor hs m = true) (s : σ) :
    (dispatchLoop hs msgs s).2.length = msgs.length := by
  induction msgs generalizing s with
  | nil => simp [dispatchLoop]
  | cons m rest ih =>
    rcases hasHandlerFor_find σ hs m (hmsgs m (List.mem_cons_self m rest)) with ⟨p, hp⟩
    have hrest : ∀ m2 ∈ rest, hasHandlerFor hs m2 = true :=
      fun m2 hm2 => hmsgs m2 (List.mem_cons_of_mem m hm2)
    simp only [dispatchLoop, get_corresponding_handler, hp]
    simp [ih hrest]

/-- C1: for every handler table and received message `m`: if the table
decomposes as non-matching entries, then a matching entry `(t, h)`, then
anything, `get_corresponding_handler` returns `h` (first match wins,
`isinstance` gives supertype/marker matching), and dispatching a batch
with `m` after a fully-handled prefix invokes exactly `h`, exactly once,
on that occurrence of `m` (one trace event per prefix message, then the
single event for `m`, then the rest).  If no entry matches `m`,
`get_corresponding_handler` raises `UnknowMessageTypeException`, no
handler is invoked for `m`, and the remaining messages of the batch are
not dispatched. -/
theorem C1_dispatch_first_match (σ : Type) (hs : List (Nat × AHandler σ)) (m : PMsg) :
    (∀ hs1 t h hs2, hs = hs1 ++ (t, h) :: hs2 →
      (∀ p ∈ hs1, isinstance m p.1 = false) → isinstance m t = true →
      get_corresponding_handler hs m = Except.ok h ∧
      ∀ pre post s, (∀ m2 ∈ pre, hasHandlerFor hs m2 = true) →
        dispatchLoop hs (pre ++ m :: post) s =
          ((dispatchLoop hs post (h.handle_message m (applyHandlers hs pre s))).1,
           (dispatchLoop hs pre s).2 ++
             DEv.handlerCall h.hid m ::
               (dispatchLoop hs post (h.handle_message m (applyHandlers hs pre s))).2) ∧
        (dispatchLoop hs pre s).2.length = pre.length) ∧
    ((∀ p ∈ hs, isinstance m p.1 = false) →
      get_corresponding_handler hs m = Except.error ActorErr.unknownMessageType ∧
      ∀ pre post s, (∀ m2 ∈ pre, hasHandlerFor hs m2 = true) →
        dispatchLoop hs (pre ++ m :: post) s =
          (Except.error ActorErr.unknownMessageType, (dispatchLoop hs pre s).2)) := by
  constructor
  · intro hs1 t h hs2 hdec h1 h2
    have hfind : hs.find? (fun p => isinstance m p.1) = some (t, h) := by
      rw [hdec]; exact find_first_match σ m hs1 hs2 t h h1 h2
    have hgch : get_corresponding_handler hs m = Except.ok h := by
      simp [get_corresponding_handler, hfind]
    refine ⟨hgch, ?_⟩
    intro pre post s hpre
    refine ⟨?_, dispatch_trace_length σ hs pre hpre s⟩
    rw [dispatch_append σ hs pre (m :: post) hpre s]
    simp only [dispatchLoop, get_corresponding_handler, hfind]
  · intro hnone
    have hfind : hs.find? (fun p => isinstance m p.1) = none :=
      List.find?_eq_none.2 (fun p hp => by simp [hnone p hp])
    have hgch : get_corresponding_handler hs m = Except.error ActorErr.unknownMessageType := by
      simp [get_corresponding_handler, hfind]
    refine ⟨hgch, ?_⟩
    intro pre post s hpre
    rw [dispatch_append σ hs pre (m :: post) hpre s]
    simp only [dispatchLoop, get_corresponding_handler, hfind]
    simp

/-- Witness for C1 on the two-entry demo table: the class-1 message is
handled by the second entry exactly once after a handled prefix, and the
unmatched message aborts the batch with `UnknowMessageTypeException` after
the prefix, invoking nothing for it. -/
theorem C1_dispatch_first_match_witness :
    get_corresponding_handler demoHs demoMsg = Except.ok demoHB ∧
    dispatchLoop demoHs [demoM0, demoMsg] (0 : Nat) =
      (Except.ok 6, [DEv.handlerCall 0 demoM0, DEv.handlerCall 1 demoMsg]) ∧
    get_corresponding_handler demoHs demoBad = Except.error ActorErr.unknownMessageType ∧
    dispatchLoop demoHs [demoM0, demoBad, demoMsg] (0 : Nat) =
      (Except.error ActorErr.unknownMessageType, [DEv.handlerCall 0 demoM0]) := by
  have hok := (C1_dispatch_first_match Nat demoHs demoMsg).1 [(0, demoHA)] 1 demoHB []
    rfl (by decide) (by decide)
  have hmiss := (C1_dispatch_first_match Nat demoHs demoBad).2 (by decide)
  refine ⟨hok.1, ?_, hmiss.1, ?_⟩
  · exact ((hok.2 [demoM0] [] 0 (by decide)).1).trans rfl
  · exact (hmiss.2 [demoM0] [demoMsg] 0 (by decide)).trans rfl

/-- Helper: the run decomposition is never empty (the open run is always
closed at the end). -/
theorem tsRunsAux_ne_nil (cursor : List MDoc) (ts : Nat) (acc : List MDoc) :
    tsRunsAux cursor ts acc ≠ [] := by
  induction cursor generalizing ts acc with
  | nil => simp [tsRunsAux]
  | cons d rest ih =>
    rw [tsRunsAux]
    by_cases h : (ts == d.ts) = true
    · simpa [h] using ih ts (acc ++ [d])
    · simp [h]

/-- Helper: the batch loop with a buffered group emits every run except
the last one. -/
theorem subscribeLoop_eq_dropLast (cursor : List MDoc) (ts : Nat) (acc : List MDoc) :
    subscribeLoop cursor (some (ts, acc)) = (tsRunsAux cursor ts acc).dropLast := by
  induction cursor generalizing ts acc with
  | nil => simp [subscribeLoop, tsRunsAux]
  | cons d rest ih =>
    rw [subscribeLoop, tsRunsAux]
    by_cases h : (ts == d.ts) = true
    · simpa [h] using ih ts (acc ++ [d])
    · simp only [h, if_false]
      rw [ih d.ts [d]]
      rcases hr : tsRunsAux rest d.ts [d] with _ | ⟨r, rs⟩
      · exact absurd hr (tsRunsAux_ne_nil rest d.ts [d])
      · simp [List.dropLast]

/-- Helper: the runs concatenate back to the cursor. -/
theorem tsRunsAux_flatten (cursor : List MDoc) (ts : Nat) (acc : List MDoc) :
    (tsRunsAux cursor ts acc).flatten = acc ++ cursor := by
  induction cursor generalizing ts acc with
  | nil => simp [tsRunsAux]
  | cons d rest ih =>
    rw [tsRunsAux]
    by_cases h : (ts == d.ts) = true
    · simpa [h] using ih ts (acc ++ [d])
    · simp [h, ih]

/-- Helper: every run is nonempty and timestamp-constant, given a
nonempty timestamp-constant open run. -/
theorem tsRunsAux_const (cursor : List MDoc) (ts : Nat) (acc : List MDoc)
    (hne : acc ≠ []) (hconst : ∀ d ∈ acc, d.ts = ts) :
    ∀ run ∈ tsRunsAux cursor ts acc, run ≠ [] ∧ ∃ t, ∀ d ∈ run, d.ts = t := by
  induction cursor generalizing ts acc with
  | nil =>
    intro run hrun
    rw [tsRunsAux, List.mem_singleton] at hrun
    subst hrun
    exact ⟨hne, ts, hconst⟩
  | cons d rest ih =>
    intro run hrun
    rw [tsRunsAux] at hrun
    by_cases h : (ts == d.ts) = true
    · rw [if_pos h] at hrun
      have hconst' : ∀ d2 ∈ acc ++ [d], d2.ts = ts := by
        intro d2 hd2
        rcases List.mem_append.1 hd2 with h1 | h1
        · exact hconst d2 h1
        · rw [List.mem_singleton] at h1
          subst h1
          exact (eq_of_beq h).symm
      exact ih ts (acc ++ [d]) (by simp) hconst' run hrun
    · rw [if_neg h] at hrun
      rcases List.mem_cons.1 hrun with h1 | h1
      · subst h1
        exact ⟨hne, ts, hconst⟩
      · exact ih d.ts [d] (by simp) (by simp) run h1

/-- Helper: the first run of the decomposition carries the open run's
timestamp. -/
theorem tsRunsAux_head_ts (cursor : List MDoc) (ts : Nat) (acc : List MDoc)
    (hconst : ∀ d ∈ acc, d.ts = ts) :
    ∀ run ∈ (tsRunsAux cursor ts acc).head?, ∀ d ∈ run, d.ts = ts := by
  induction cursor generalizing ts acc with
  | nil =>
    intro run hrun
    rw [tsRunsAux] at hrun
    simp only [List.head?_cons, Option.mem_def, Option.some.injEq] at hrun
    subst hrun
    exact hconst
  | cons d rest ih =>
    intro run hrun
    rw [tsRunsAux] at hrun
    by_cases h : (ts == d.ts) = true
    · rw [if_pos h] at hrun
      have hconst' : ∀ d2 ∈ acc ++ [d], d2.ts = ts := by
        intro d2 hd2
        rcases List.mem_append.1 hd2 with h1 | h1
        · exact hconst d2 h1
        · rw [List.mem_singleton] at h1
          subst h1
          exact (eq_of_beq h).symm
      exact ih ts (acc ++ [d]) hconst' run hrun
    · rw [if_neg h] at hrun
      simp only [List.head?_cons, Option.mem_def, Option.some.injEq] at hrun
      subst hrun
      exact hconst

/-- Helper: adjacent runs of the decomposition have pairwise different
timestamps. -/
theorem tsRunsAux_chain (cursor : List MDoc) (ts : Nat) (acc : List MDoc)
    (hconst : ∀ d ∈ acc, d.ts = ts) :
    List.Chain' (fun r1 r2 => ∀ d1 ∈ r1, ∀ d2 ∈ r2, d1.ts ≠ d2.ts)
      (tsRunsAux cursor ts acc) := by
  induction cursor generalizing ts acc with
  | nil =>
    rw [tsRunsAux]
    exact List.chain'_singleton acc
  | cons d rest ih =>
    rw [tsRunsAux]
    by_cases h : (ts == d.ts) = true
    · rw [if_pos h]
      have hconst' : ∀ d2 ∈ acc ++ [d], d2.ts = ts := by
        intro d2 hd2
        rcases List.mem_append.1 hd2 with h1 | h1
        · exact hconst d2 h1
        · rw [List.mem_singleton] at h1
          subst h1
          exact (eq_of_beq h).symm
      exact ih ts (acc ++ [d]) hconst'
    · rw [if_neg h]
      rw [List.chain'_cons']
      constructor
      · intro run hrun d1 hd1 d2 hd2
        have hd2ts : d2.ts = d.ts :=
          tsRunsAux_head_ts rest d.ts [d] (by simp) run hrun d2 hd2
        have hd1ts : d1.ts = ts := hconst d1 hd1
        rw [hd1ts, hd2ts]
        exact fun hcontra => h (by simp [hcontra])
      · exact ih d.ts [d] (by simp)

/-- C10: in batch mode `MongoSource.subscribe` emits a buffered timestamp
group only when a later row carries a different timestamp, and returns on
cursor exhaustion without emitting the still-buffered group: the emitted
groups are exactly all maximal consecutive same-timestamp runs of the
collection EXCEPT the last one, so for a non-empty collection the final
run — the rows sharing the final timestamp — is never delivered to the
observer. -/
theorem C10_last_group_never_emitted (docs : List MDoc) :
    subscribe_batch docs = (tsRuns docs).dropLast ∧
    (tsRuns docs).flatten = docs ∧
    (∀ run ∈ tsRuns docs, run ≠ [] ∧ ∃ t, ∀ d ∈ run, d.ts = t) ∧
    List.Chain' (fun r1 r2 => ∀ d1 ∈ r1, ∀ d2 ∈ r2, d1.ts ≠ d2.ts) (tsRuns docs) ∧
    (docs ≠ [] → tsRuns docs ≠ []) := by
  rcases docs with _ | ⟨d, rest⟩
  · exact ⟨rfl, rfl, by simp [tsRuns], by simp [tsRuns], by simp⟩
  · refine ⟨?_, ?_, ?_, ?_, ?_⟩
    · rw [subscribe_batch, subscribeLoop, tsRuns]
      exact subscribeLoop_eq_dropLast rest d.ts [d]
    · rw [tsRuns]
      simpa using tsRunsAux_flatten rest d.ts [d]
    · rw [tsRuns]
      exact tsRunsAux_const rest d.ts [d] (by simp) (by simp)
    · rw [tsRuns]
      exact tsRunsAux_chain rest d.ts [d] (by simp)
    · intro _
      rw [tsRuns]
      exact tsRunsAux_ne_nil rest d.ts [d]

/-- Witness for C10: on a cursor with two timestamp-1 documents followed
by one timestamp-2 document, only the first group is emitted and the final
timestamp-2 run stays buffered. -/
theorem C10_last_group_never_emitted_witness :
    subscribe_batch demoDocs = [[MDoc.mk 1 0, MDoc.mk 1 1]] ∧
    tsRuns demoDocs = [[MDoc.mk 1 0, MDoc.mk 1 1], [MDoc.mk 2 2]] ∧
    demoDocs ≠ [] ∧
    tsRuns demoDocs ≠ [] := by
  have h := C10_last_group_never_emitted demoDocs
  exact ⟨h.1.trans rfl, rfl, by decide, h.2.2.2.2 (by decide)⟩

end PowerAPI
